import Mathlib

/-!
Shallow embedding of the trust policy evaluation engine
(`backend/services/trust_service.py` with data model from `backend/models.py`).

Python dictionaries of attributes are modelled as association lists
`List (String × Value)` where the FIRST matching key wins on lookup;
`d.update(e)` is therefore modelled as `e ++ d`.  Python scalar attribute
values appearing in the engine are numbers and strings, modelled by `Value`.
Scores are Python floats that only ever take dyadic-rational values
(products of 0.5, averages of such); they are modelled exactly as `ℚ`.
The wall-clock timestamp `datetime.utcnow().isoformat()` is modelled as an
explicit input `now : String` to `verify_trust`.
-/

/-- A Python scalar value stored in an attribute map: a number or a string. -/
inductive Value where
  | int : Int → Value
  | str : String → Value
deriving DecidableEq, Repr

/-- An attribute dictionary: association list, first matching key wins. -/
abbrev AttrMap := List (String × Value)

/-- Lookup in an association list (first match wins), mirroring Python
`dict` access after our `update = append` encoding. -/
def lookupKey {α : Type} (k : String) : List (String × α) → Option α
  | [] => none
  | kv :: rest => if kv.1 = k then some kv.2 else lookupKey k rest

/-- First defined value among two optional values; `firstSome o₁ o₂` is the
value a key lookup takes in a dict merge where `o₁`'s source overrides
`o₂`'s source. -/
def firstSome {α : Type} : Option α → Option α → Option α
  | some v, _ => some v
  | none, o => o

/-- Python membership test `value in list_of_strings`: an `int` is never a
member of a list of strings, a `str` is a member iff the string is. -/
def Value.memStrs : Value → List String → Bool
  | .int _, _ => false
  | .str s, l => l.contains s

/-- Render a value the way a Python f-string does. -/
def Value.render : Value → String
  | .int v => toString v
  | .str s => s

/-- A rule configuration dictionary.  The engine only ever reads the keys
`min`, `max`, `allowed`, `blocked`, `preferred` (via `.get` with defaults),
so the dictionary is modelled by those optional fields; an absent key is
`none`. -/
structure RuleConfig where
  min : Option Int := none
  max : Option Int := none
  allowed : Option (List String) := none
  blocked : Option (List String) := none
  preferred : Option (List String) := none
deriving DecidableEq, Repr

/-- `models.TrustPolicy`: `rules` is a dict rule-name → rule-config,
modelled as an association list in insertion order. -/
structure TrustPolicy where
  id : String
  name : String
  description : String := ""
  rules : List (String × RuleConfig)
deriving DecidableEq, Repr

/-- The part of a vLEI credential dict the engine reads:
`credential.get("credentialSubject", {})`.  An absent `credentialSubject`
key behaves exactly like an empty dict, so the credential is modelled by
that mapping. -/
structure Credential where
  credentialSubject : AttrMap
deriving DecidableEq, Repr

/-- `models.Agent`, restricted to the fields the trust service reads. -/
structure Agent where
  credential_verified : Bool := false
  verification_details : AttrMap := []
  trust_policies : List TrustPolicy := []
  metadata : AttrMap := []
  vlei_credential : Option Credential := none
deriving DecidableEq, Repr

/-- The result dict returned by `_evaluate_rule` / the per-kind rule
evaluators.  `value`, `requirement` and `preferred` are only present in
some branches, hence optional. -/
structure RuleResult where
  passed : Bool
  reason : String
  value : Option Value := none
  requirement : Option RuleConfig := none
  preferred : Option Bool := none
deriving DecidableEq, Repr

/-- The result dict returned by `_evaluate_policy`. -/
structure PolicyResult where
  policy_name : String
  passed : Bool
  details : List (String × RuleResult)
  score : ℚ
deriving DecidableEq, Repr

/-- The `verification_details` mapping of a trust verification result:
either the unverified-credentials info dict, or the policy-results dict
with the audit timestamp. -/
inductive VerificationDetails where
  | unverifiedInfo (source_verified target_verified : Bool)
  | policyInfo (policy_results : List PolicyResult) (timestamp : String)
deriving DecidableEq, Repr

/-- The dict returned by `TrustService.verify_trust`
(shape of `models.TrustVerificationResult`). -/
structure TrustVerificationResult where
  allowed : Bool
  reason : String
  score : ℚ
  policies_passed : List String
  policies_failed : List String
  verification_details : VerificationDetails
deriving DecidableEq, Repr

namespace TrustService

/-- `TrustService._evaluate_esg_rule`.  A non-numeric `esg_score` value
makes the Python chained comparison raise `TypeError`, which
`_evaluate_rule` catches and turns into a failed result. -/
def evaluate_esg_rule (rule_config : RuleConfig) (agent_data : AttrMap) : RuleResult :=
  let esg_score := (lookupKey "esg_score" agent_data).getD (.int 50)
  let min_score := rule_config.min.getD 0
  let max_score := rule_config.max.getD 100
  match esg_score with
  | .int v =>
      let passed := decide (min_score ≤ v ∧ v ≤ max_score)
      { passed := passed
        reason := "ESG score " ++ toString v ++ " " ++
          (if passed then "meets" else "does not meet") ++ " requirement (" ++
          toString min_score ++ "-" ++ toString max_score ++ ")"
        value := some (.int v)
        requirement := some rule_config }
  | .str s =>
      { passed := false
        reason := "Rule evaluation error: not supported between instances of str and int"
        value := some (.str s) }

/-- `TrustService._evaluate_jurisdiction_rule`.  Python truthiness of the
lists is modelled by explicit emptiness tests. -/
def evaluate_jurisdiction_rule (rule_config : RuleConfig) (agent_data : AttrMap) : RuleResult :=
  let agent_jurisdiction := (lookupKey "jurisdiction" agent_data).getD (.str "UNKNOWN")
  let allowed_jurisdictions := rule_config.allowed.getD []
  let blocked_jurisdictions := rule_config.blocked.getD []
  let preferred_jurisdictions := rule_config.preferred.getD []
  if !blocked_jurisdictions.isEmpty && agent_jurisdiction.memStrs blocked_jurisdictions then
    { passed := false
      reason := "Jurisdiction " ++ agent_jurisdiction.render ++ " is blocked"
      value := some agent_jurisdiction
      requirement := some rule_config }
  else if !allowed_jurisdictions.isEmpty && !agent_jurisdiction.memStrs allowed_jurisdictions then
    { passed := false
      reason := "Jurisdiction " ++ agent_jurisdiction.render ++ " is not in allowed list"
      value := some agent_jurisdiction
      requirement := some rule_config }
  else
    let is_preferred :=
      if !preferred_jurisdictions.isEmpty then
        agent_jurisdiction.memStrs preferred_jurisdictions
      else true
    { passed := true
      reason := "Jurisdiction " ++ agent_jurisdiction.render ++ " is " ++
        (if is_preferred then "preferred" else "acceptable")
      value := some agent_jurisdiction
      requirement := some rule_config
      preferred := some is_preferred }

/-- `TrustService._evaluate_size_rule`. -/
def evaluate_size_rule (rule_config : RuleConfig) (agent_data : AttrMap) : RuleResult :=
  let size := (lookupKey "organization_size" agent_data).getD (.str "medium")
  let allowed_sizes := rule_config.allowed.getD ["small", "medium", "large", "enterprise"]
  let passed := size.memStrs allowed_sizes
  { passed := passed
    reason := "Organization size " ++ size.render ++ " " ++
      (if passed then "is" else "is not") ++ " in allowed list"
    value := some size
    requirement := some rule_config }

/-- `TrustService._evaluate_sector_rule`. -/
def evaluate_sector_rule (rule_config : RuleConfig) (agent_data : AttrMap) : RuleResult :=
  let sector := (lookupKey "sector" agent_data).getD (.str "unknown")
  let allowed_sectors := rule_config.allowed.getD []
  let blocked_sectors := rule_config.blocked.getD []
  if !blocked_sectors.isEmpty && sector.memStrs blocked_sectors then
    { passed := false
      reason := "Sector " ++ sector.render ++ " is blocked"
      value := some sector
      requirement := some rule_config }
  else if !allowed_sectors.isEmpty && !sector.memStrs allowed_sectors then
    { passed := false
      reason := "Sector " ++ sector.render ++ " is not in allowed list"
      value := some sector
      requirement := some rule_config }
  else
    { passed := true
      reason := "Sector " ++ sector.render ++ " is acceptable"
      value := some sector
      requirement := some rule_config }

/-- `TrustService._evaluate_rule`: dispatch on the rule name; unknown
names produce an unconditional pass. -/
def evaluate_rule (rule_name : String) (rule_config : RuleConfig) (agent_data : AttrMap) : RuleResult :=
  if rule_name = "esg_score" then
    evaluate_esg_rule rule_config agent_data
  else if rule_name = "jurisdiction" then
    evaluate_jurisdiction_rule rule_config agent_data
  else if rule_name = "organization_size" then
    evaluate_size_rule rule_config agent_data
  else if rule_name = "sector" then
    evaluate_sector_rule rule_config agent_data
  else
    { passed := true, reason := "Unknown rule " ++ rule_name ++ " - skipped" }

/-- The built-in defaults dict of `TrustService._extract_agent_data`. -/
def attribute_defaults : AttrMap :=
  [("esg_score", .int 75), ("jurisdiction", .str "EU"),
   ("organization_size", .str "medium"), ("sector", .str "technology")]

/-- `agent.vlei_credential.get("credentialSubject", {})` guarded by the
`if agent.vlei_credential:` check (an absent credential contributes no
overrides, i.e. the empty dict). -/
def credential_subject (agent : Agent) : AttrMap :=
  match agent.vlei_credential with
  | some c => c.credentialSubject
  | none => []

/-- The dict built by `_extract_agent_data` before defaults are added:
a copy of `metadata`, updated with `verification_details`, updated with
the credential subject (recall update = prepend, first match wins). -/
def merged_agent_data (agent : Agent) : AttrMap :=
  credential_subject agent ++ agent.verification_details ++ agent.metadata

/-- `TrustService._extract_agent_data`: the merged dict, with each default
added only for keys still missing. -/
def extract_agent_data (agent : Agent) : AttrMap :=
  merged_agent_data agent ++
    attribute_defaults.filter (fun kv => (lookupKey kv.1 (merged_agent_data agent)).isNone)

/-- The loop body of `_evaluate_policy`: record the rule result under the
rule's name, clear `passed` on a failed rule and halve the running score. -/
def policy_step (agent_data : AttrMap) (acc : PolicyResult) (r : String × RuleConfig) : PolicyResult :=
  let rule_result := evaluate_rule r.1 r.2 agent_data
  { acc with
    details := acc.details ++ [(r.1, rule_result)]
    passed := acc.passed && rule_result.passed
    score := if rule_result.passed then acc.score else acc.score * (1 / 2) }

/-- The body of `TrustService._evaluate_policy` after the target's
attributes have been resolved: fold the loop body over the rules,
starting from `passed := true`, `score := 1.0`. -/
def evaluate_policy_core (policy_name : String) (rules : List (String × RuleConfig))
    (agent_data : AttrMap) : PolicyResult :=
  rules.foldl (policy_step agent_data)
    { policy_name := policy_name, passed := true, details := [], score := 1 }

/-- `TrustService._evaluate_policy`. -/
def evaluate_policy (policy : TrustPolicy) (target_agent : Agent) : PolicyResult :=
  evaluate_policy_core policy.name policy.rules (extract_agent_data target_agent)

/-- `TrustService._calculate_trust_score`: arithmetic mean of the policy
scores, clamped to 1.0; empty input yields 0.0. -/
def calculate_trust_score (policy_results : List PolicyResult) : ℚ :=
  if policy_results.isEmpty then 0
  else
    let total_score := (policy_results.map PolicyResult.score).sum
    min (total_score / (policy_results.length : ℚ)) 1

/-- `TrustService._load_default_policies`. -/
def default_policies : List TrustPolicy :=
  [{ id := "default-esg"
     name := "ESG Compliance"
     description := "Minimum ESG score requirement"
     rules := [("esg_score", { min := some 60 })] },
   { id := "default-jurisdiction"
     name := "Jurisdiction Trust"
     description := "Acceptable jurisdictions for business"
     rules := [("jurisdiction",
       { preferred := some ["EU", "US", "CA", "UK", "AU"]
         blocked := some ["SANCTIONED"] })] }]

/-- `TrustService.verify_trust`.  `now` is the value
`datetime.utcnow().isoformat()` would produce at the time of the call. -/
def verify_trust (source_agent target_agent : Agent) (now : String) : TrustVerificationResult :=
  if !source_agent.credential_verified || !target_agent.credential_verified then
    { allowed := false
      reason := "One or both agents lack verified vLEI credentials"
      score := 0
      policies_passed := []
      policies_failed := ["credential_verification"]
      verification_details :=
        .unverifiedInfo source_agent.credential_verified target_agent.credential_verified }
  else
    let policies_to_check :=
      if !source_agent.trust_policies.isEmpty then source_agent.trust_policies
      else default_policies
    let policy_results := policies_to_check.map (fun p => evaluate_policy p target_agent)
    let policies_passed := policies_to_check.filterMap
      (fun p => if (evaluate_policy p target_agent).passed then some p.name else none)
    let policies_failed := policies_to_check.filterMap
      (fun p => if (evaluate_policy p target_agent).passed then none else some p.name)
    let trust_score := calculate_trust_score policy_results
    let allowed := decide ((7 : ℚ) / 10 ≤ trust_score) && decide (policies_failed.length = 0)
    let reason :=
      if allowed then "Trust verification passed"
      else "Failed policies: " ++ String.intercalate ", " policies_failed
    { allowed := allowed
      reason := reason
      score := trust_score
      policies_passed := policies_passed
      policies_failed := policies_failed
      verification_details := .policyInfo policy_results now }

end TrustService

/-! ## Basic lemmas about association-list lookup and the policy fold -/

namespace TrustService

lemma lookupKey_append {α : Type} (k : String) (l₁ l₂ : List (String × α)) :
    lookupKey k (l₁ ++ l₂) = firstSome (lookupKey k l₁) (lookupKey k l₂) := by
  induction l₁ with
  | nil => simp [lookupKey, firstSome]
  | cons kv rest ih =>
      by_cases hk : kv.1 = k <;> simp [lookupKey, hk, ih, firstSome]

lemma lookupKey_filter {α : Type} (p : String → Bool) (k : String) (l : List (String × α)) :
    lookupKey k (l.filter fun kv => p kv.1) = if p k then lookupKey k l else none := by
  induction l with
  | nil => simp [lookupKey]
  | cons kv rest ih =>
      by_cases hpk : p kv.1 = true
      · by_cases hk : kv.1 = k
        · subst hk
          simp [List.filter_cons, hpk, lookupKey]
        · simp [List.filter_cons, hpk, lookupKey, hk, ih]
      · by_cases hk : kv.1 = k
        · subst hk
          simp [List.filter_cons, hpk, lookupKey, ih]
        · simp [List.filter_cons, hpk, lookupKey, hk, ih]

lemma firstSome_assoc {α : Type} (a b c : Option α) :
    firstSome (firstSome a b) c = firstSome a (firstSome b c) := by
  cases a <;> cases b <;> simp [firstSome]

lemma firstSome_if_isNone {α : Type} (o d : Option α) :
    firstSome o (if o.isNone then d else none) = firstSome o d := by
  cases o <;> simp [firstSome]

/-- Characterization of the `_evaluate_policy` loop: the final score is the
initial score times one half per failed rule, and the final `passed` flag
is the initial one conjoined with all rules passing. -/
lemma foldl_policy_step (agent_data : AttrMap) (rules : List (String × RuleConfig)) :
    ∀ acc : PolicyResult,
      (rules.foldl (policy_step agent_data) acc).score =
        acc.score * (1 / 2 : ℚ) ^ rules.countP (fun r => !(evaluate_rule r.1 r.2 agent_data).passed) ∧
      (rules.foldl (policy_step agent_data) acc).passed =
        (acc.passed && rules.all fun r => (evaluate_rule r.1 r.2 agent_data).passed) := by
  induction rules with
  | nil => intro acc; simp
  | cons r rs ih =>
      intro acc
      obtain ⟨hs, hp⟩ := ih (policy_step agent_data acc r)
      constructor
      · rw [List.foldl_cons, hs, List.countP_cons]
        by_cases h : (evaluate_rule r.1 r.2 agent_data).passed = true
        · simp [policy_step, h]
        · simp [policy_step, h, pow_succ]
          ring
      · rw [List.foldl_cons, hp, List.all_cons]
        by_cases h : (evaluate_rule r.1 r.2 agent_data).passed = true <;>
          simp [policy_step, h, Bool.and_assoc]

end TrustService

/-! ## Claim theorems -/

namespace TrustService

/-- Claim C1: whenever either agent's credential is unverified,
`verify_trust` short-circuits to the fixed rejection result — allowed
false, score 0, no policies passed, only `credential_verification` failed,
details recording the two verified flags — independent of the source's
policies and the target's attributes. -/
theorem C1_unverified_short_circuit (source_agent target_agent : Agent) (now : String)
    (h : source_agent.credential_verified = false ∨ target_agent.credential_verified = false) :
    verify_trust source_agent target_agent now =
      { allowed := false
        reason := "One or both agents lack verified vLEI credentials"
        score := 0
        policies_passed := []
        policies_failed := ["credential_verification"]
        verification_details :=
          .unverifiedInfo source_agent.credential_verified target_agent.credential_verified } := by
  rcases h with h | h <;> simp [verify_trust, h]

theorem C1_witness :
    verify_trust ({} : Agent) ({ credential_verified := true } : Agent) "2024-01-01T00:00:00" =
      { allowed := false
        reason := "One or both agents lack verified vLEI credentials"
        score := 0
        policies_passed := []
        policies_failed := ["credential_verification"]
        verification_details := .unverifiedInfo false true } :=
  C1_unverified_short_circuit {} { credential_verified := true } "2024-01-01T00:00:00" (Or.inl rfl)

/-- Claim C2: for verified pairs the final decision is
`allowed = (score ≥ 0.7) AND (no failed policies)`; in particular a single
failed policy forces `allowed = false` regardless of the aggregate score. -/
theorem C2_threshold_and_policy_veto (source_agent target_agent : Agent) (now : String)
    (hs : source_agent.credential_verified = true) (ht : target_agent.credential_verified = true) :
    ((verify_trust source_agent target_agent now).allowed = true ↔
      ((7 : ℚ) / 10 ≤ (verify_trust source_agent target_agent now).score ∧
        (verify_trust source_agent target_agent now).policies_failed = [])) ∧
    ((verify_trust source_agent target_agent now).policies_failed ≠ [] →
      (verify_trust source_agent target_agent now).allowed = false) := by
  constructor
  · simp [verify_trust, hs, ht, List.length_eq_zero]
  · intro hne
    simp only [verify_trust, hs, ht] at hne ⊢
    simp only [Bool.not_true, Bool.or_self, Bool.false_eq_true, if_false] at hne ⊢
    simp_all [List.length_eq_zero]

theorem C2_witness :
    (((verify_trust ({ credential_verified := true } : Agent)
          ({ credential_verified := true } : Agent) "t").allowed = true ↔
      ((7 : ℚ) / 10 ≤ (verify_trust ({ credential_verified := true } : Agent)
          ({ credential_verified := true } : Agent) "t").score ∧
        (verify_trust ({ credential_verified := true } : Agent)
          ({ credential_verified := true } : Agent) "t").policies_failed = [])) ∧
    ((verify_trust ({ credential_verified := true } : Agent)
          ({ credential_verified := true } : Agent) "t").policies_failed ≠ [] →
      (verify_trust ({ credential_verified := true } : Agent)
          ({ credential_verified := true } : Agent) "t").allowed = false)) :=
  C2_threshold_and_policy_veto { credential_verified := true } { credential_verified := true } "t"
    rfl rfl

/-- Claim C3: policy evaluation halves the score once per failed rule
(`score = 0.5 ^ number_of_failed_rules`, starting from 1.0) and sets
`passed` true exactly when every rule passed; an empty rule set gives
`passed = true`, `score = 1.0`. -/
theorem C3_geometric_rule_penalty (policy_name : String) (rules : List (String × RuleConfig))
    (agent_data : AttrMap) :
    (evaluate_policy_core policy_name rules agent_data).score =
      (1 / 2 : ℚ) ^ rules.countP (fun r => !(evaluate_rule r.1 r.2 agent_data).passed) ∧
    ((evaluate_policy_core policy_name rules agent_data).passed = true ↔
      ∀ r ∈ rules, (evaluate_rule r.1 r.2 agent_data).passed = true) := by
  obtain ⟨hs, hp⟩ := foldl_policy_step agent_data rules
    { policy_name := policy_name, passed := true, details := [], score := 1 }
  refine ⟨?_, ?_⟩
  · rw [evaluate_policy_core, hs]
    simp
  · rw [evaluate_policy_core, hp]
    simp [List.all_eq_true]

/-- Claim C5: any rule name outside the four built-in kinds evaluates to a
passing rule result, whatever the configuration and the attributes. -/
theorem C5_unknown_rule_passes (rule_name : String) (rule_config : RuleConfig)
    (agent_data : AttrMap)
    (h1 : rule_name ≠ "esg_score") (h2 : rule_name ≠ "jurisdiction")
    (h3 : rule_name ≠ "organization_size") (h4 : rule_name ≠ "sector") :
    (evaluate_rule rule_name rule_config agent_data).passed = true := by
  simp [evaluate_rule, h1, h2, h3, h4]

theorem C5_witness : (evaluate_rule "foo" {} []).passed = true :=
  C5_unknown_rule_passes "foo" {} [] (by decide) (by decide) (by decide) (by decide)

end TrustService

namespace TrustService

/-- Claim C4 counterexample: both agents verified, the source's policy set
empty — `verify_trust` does NOT return score 0 / allowed false; the empty
set triggers the fallback to the default policies, which the default
target attributes satisfy, giving score 1.0 and allowed true. -/
theorem C4_counterexample :
    ({ credential_verified := true } : Agent).trust_policies = [] ∧
    (verify_trust ({ credential_verified := true } : Agent)
        ({ credential_verified := true } : Agent) "2024-01-01T00:00:00").score = 1 ∧
    (verify_trust ({ credential_verified := true } : Agent)
        ({ credential_verified := true } : Agent) "2024-01-01T00:00:00").allowed = true := by
  refine ⟨rfl, ?_, ?_⟩ <;>
      simp [verify_trust, default_policies, evaluate_policy, evaluate_policy_core,
        policy_step, evaluate_rule, evaluate_esg_rule, evaluate_jurisdiction_rule,
        extract_agent_data, merged_agent_data, credential_subject, attribute_defaults,
        lookupKey, Value.memStrs, calculate_trust_score] <;>
      norm_num

/-- Claim C4 amended: when both agents are verified and the source's policy
set is empty, `verify_trust` falls back to the default policy pair, so its
score is the aggregate over the default policies against the target; the
score is 0.0 only one level lower — `_calculate_trust_score` of an empty
policy-result list is 0.0 (and a 0.0 score can never reach the 0.7
threshold), but the non-empty default set prevents that case end to end. -/
theorem C4_empty_policies_default_fallback (source_agent target_agent : Agent) (now : String)
    (hs : source_agent.credential_verified = true) (ht : target_agent.credential_verified = true)
    (hp : source_agent.trust_policies = []) :
    (verify_trust source_agent target_agent now).score =
      calculate_trust_score (default_policies.map fun p => evaluate_policy p target_agent) ∧
    calculate_trust_score [] = 0 := by
  constructor
  · simp [verify_trust, hs, ht, hp]
  · simp [calculate_trust_score]

theorem C4_witness :
    (verify_trust ({ credential_verified := true } : Agent)
        ({ credential_verified := true } : Agent) "2024-01-01T00:00:00").score =
      calculate_trust_score
        (default_policies.map fun p =>
          evaluate_policy p ({ credential_verified := true } : Agent)) ∧
    calculate_trust_score [] = 0 :=
  C4_empty_policies_default_fallback { credential_verified := true }
    { credential_verified := true } "2024-01-01T00:00:00" rfl rfl rfl

/-- Claim C6 counterexample: two invocations of `verify_trust` on identical
agents but at different clock readings return different results — the
`verification_details` mapping embeds the wall-clock timestamp. -/
theorem C6_counterexample :
    verify_trust ({ credential_verified := true } : Agent)
        ({ credential_verified := true } : Agent) "2024-01-01T00:00:00" ≠
      verify_trust ({ credential_verified := true } : Agent)
        ({ credential_verified := true } : Agent) "2024-01-01T00:00:01" := by
  intro h
  have h2 := congrArg TrustVerificationResult.verification_details h
  simp [verify_trust] at h2

/-- Claim C6 amended: `verify_trust` is deterministic apart from the audit
timestamp: with the clock reading made an explicit input, every result
field other than `verification_details` is identical across invocations
with the same agents, and `verification_details` itself differs at most in
its timestamp component (the embedded policy results agree). -/
theorem C6_deterministic_up_to_timestamp (source_agent target_agent : Agent) (n₁ n₂ : String) :
    (verify_trust source_agent target_agent n₁).allowed =
      (verify_trust source_agent target_agent n₂).allowed ∧
    (verify_trust source_agent target_agent n₁).reason =
      (verify_trust source_agent target_agent n₂).reason ∧
    (verify_trust source_agent target_agent n₁).score =
      (verify_trust source_agent target_agent n₂).score ∧
    (verify_trust source_agent target_agent n₁).policies_passed =
      (verify_trust source_agent target_agent n₂).policies_passed ∧
    (verify_trust source_agent target_agent n₁).policies_failed =
      (verify_trust source_agent target_agent n₂).policies_failed ∧
    ((verify_trust source_agent target_agent n₁).verification_details =
        (verify_trust source_agent target_agent n₂).verification_details ∨
      ∃ results,
        (verify_trust source_agent target_agent n₁).verification_details =
          .policyInfo results n₁ ∧
        (verify_trust source_agent target_agent n₂).verification_details =
          .policyInfo results n₂) := by
  by_cases h : (!source_agent.credential_verified || !target_agent.credential_verified) = true
  · simp [verify_trust, h]
  · simp only [verify_trust, h, if_false]
    refine ⟨rfl, rfl, rfl, rfl, rfl, Or.inr ⟨_, rfl, rfl⟩⟩

/-- Claim C7 counterexample: with configuration exactly `min = 85` the ESG
rule FAILS an attribute set whose `esg_score` is 101, although 101 ≥ 85 —
the absent `max` key defaults to 100 and caps the acceptable range. -/
theorem C7_counterexample :
    (evaluate_esg_rule { min := some 85 } [("esg_score", Value.int 101)]).passed = false ∧
    (85 : Int) ≤ 101 := by
  exact ⟨rfl, by decide⟩

/-- Claim C7 amended: an `esg_score` rule whose configuration is exactly
`min = 85` passes iff the resolved `esg_score` lies in the range 85 to 100
inclusive (`max` defaults to 100); in particular 85 passes and 84 fails. -/
theorem C7_esg_min85_range (agent_data : AttrMap) (v : Int)
    (h : lookupKey "esg_score" agent_data = some (Value.int v)) :
    ((evaluate_esg_rule { min := some 85 } agent_data).passed = true ↔
      (85 ≤ v ∧ v ≤ 100)) := by
  simp [evaluate_esg_rule, h]

theorem C7_witness :
    ((evaluate_esg_rule { min := some 85 } [("esg_score", Value.int 85)]).passed = true ↔
      ((85 : Int) ≤ 85 ∧ (85 : Int) ≤ 100)) :=
  C7_esg_min85_range [("esg_score", Value.int 85)] 85 rfl

end TrustService

namespace TrustService

/-- Claim C8: attribute resolution is a precedence merge — for every agent
and every key, the resolved value is the credential-subject claim if that
defines the key, else the verification-details value, else the metadata
value, else the built-in default; a default is used only when no other
source defines the key. -/
theorem C8_merge_precedence (agent : Agent) (k : String) :
    lookupKey k (extract_agent_data agent) =
      firstSome (lookupKey k (credential_subject agent))
        (firstSome (lookupKey k agent.verification_details)
          (firstSome (lookupKey k agent.metadata) (lookupKey k attribute_defaults))) := by
  rw [extract_agent_data, lookupKey_append,
    lookupKey_filter (fun x => (lookupKey x (merged_agent_data agent)).isNone),
    firstSome_if_isNone, merged_agent_data, lookupKey_append, lookupKey_append,
    firstSome_assoc, firstSome_assoc]

/-- Claim C9: the order in which a policy's rules are evaluated does not
affect the resulting `passed` flag or score: any permutation of the rule
sequence yields the same `passed` and the same `score`. -/
theorem C9_rule_order_commutes (policy_name : String)
    (rules₁ rules₂ : List (String × RuleConfig)) (agent_data : AttrMap)
    (h : rules₁.Perm rules₂) :
    (evaluate_policy_core policy_name rules₁ agent_data).passed =
      (evaluate_policy_core policy_name rules₂ agent_data).passed ∧
    (evaluate_policy_core policy_name rules₁ agent_data).score =
      (evaluate_policy_core policy_name rules₂ agent_data).score := by
  obtain ⟨hs₁, hp₁⟩ := foldl_policy_step agent_data rules₁
    { policy_name := policy_name, passed := true, details := [], score := 1 }
  obtain ⟨hs₂, hp₂⟩ := foldl_policy_step agent_data rules₂
    { policy_name := policy_name, passed := true, details := [], score := 1 }
  constructor
  · rw [evaluate_policy_core, evaluate_policy_core, hp₁, hp₂]
    have hall : (rules₁.all fun r => (evaluate_rule r.1 r.2 agent_data).passed) =
        (rules₂.all fun r => (evaluate_rule r.1 r.2 agent_data).passed) :=
      Bool.eq_iff_iff.mpr (by simp [List.all_eq_true, h.mem_iff])
    rw [hall]
  · rw [evaluate_policy_core, evaluate_policy_core, hs₁, hs₂,
      h.countP_eq (fun r => !(evaluate_rule r.1 r.2 agent_data).passed)]

theorem C9_witness :
    ((evaluate_policy_core "P"
        [("esg_score", { min := some 85 }), ("sector", { blocked := some ["gambling"] })]
        []).passed =
      (evaluate_policy_core "P"
        [("sector", { blocked := some ["gambling"] }), ("esg_score", { min := some 85 })]
        []).passed ∧
    (evaluate_policy_core "P"
        [("esg_score", { min := some 85 }), ("sector", { blocked := some ["gambling"] })]
        []).score =
      (evaluate_policy_core "P"
        [("sector", { blocked := some ["gambling"] }), ("esg_score", { min := some 85 })]
        []).score) :=
  C9_rule_order_commutes "P"
    [("esg_score", { min := some 85 }), ("sector", { blocked := some ["gambling"] })]
    [("sector", { blocked := some ["gambling"] }), ("esg_score", { min := some 85 })]
    []
    (List.Perm.swap (("sector", { blocked := some ["gambling"] }) : String × RuleConfig)
      (("esg_score", { min := some 85 }) : String × RuleConfig) [])

/-- Claim C10: an explicitly present but empty `allowed` list behaves
asymmetrically: the jurisdiction and sector rules ignore it (the value
passes unless blocked), while the organization-size rule then rejects
every size; only an absent `allowed` key gives the size rule its default
allowed set of small, medium, large and enterprise. -/
theorem C10_empty_allowed_asymmetry (agent_data : AttrMap) (b : List String) :
    ((evaluate_jurisdiction_rule { allowed := some [], blocked := some b } agent_data).passed =
      !(!b.isEmpty &&
        ((lookupKey "jurisdiction" agent_data).getD (.str "UNKNOWN")).memStrs b)) ∧
    ((evaluate_sector_rule { allowed := some [], blocked := some b } agent_data).passed =
      !(!b.isEmpty && ((lookupKey "sector" agent_data).getD (.str "unknown")).memStrs b)) ∧
    ((evaluate_size_rule { allowed := some [] } agent_data).passed = false) ∧
    ((evaluate_size_rule ({} : RuleConfig) agent_data).passed =
      ((lookupKey "organization_size" agent_data).getD (.str "medium")).memStrs
        ["small", "medium", "large", "enterprise"]) := by
  refine ⟨?_, ?_, ?_, ?_⟩
  · by_cases hb : (!b.isEmpty &&
        ((lookupKey "jurisdiction" agent_data).getD (.str "UNKNOWN")).memStrs b) = true <;>
      simp [evaluate_jurisdiction_rule, hb]
  · by_cases hb : (!b.isEmpty &&
        ((lookupKey "sector" agent_data).getD (.str "unknown")).memStrs b) = true <;>
      simp [evaluate_sector_rule, hb]
  · simp [evaluate_size_rule, Value.memStrs]
    cases (lookupKey "organization_size" agent_data).getD (.str "medium") <;>
      simp [Value.memStrs]
  · simp [evaluate_size_rule]

end TrustService
